import Mathlib

/-!
Shallow embedding of the Python Background Creator (pbc.py): the region
and margin geometry model of `Background.__init__`, the include-margins
toggle, region resolution, and the pixel-level operations `filter`,
`overlay`-adjacent paste primitives, `image`, and `save` naming.

Numbers supplied by the user (margin values, hbratio) are Python floats
or ints; they are embedded as exact rationals.  Python `int(x)` truncates
toward zero, which is embedded by `pyInt`.  Image-library calls (PIL) are
collaborators outside the repository and are modelled from the spec where
the claims need them.
-/

set_option allowUnsafeReducibility true in
attribute [semireducible] Rat.mul Rat.div Rat.add Rat.sub Rat.neg Rat.inv

namespace Pbc

instance {ε α : Type} [DecidableEq ε] [DecidableEq α] : DecidableEq (Except ε α) := fun x y =>
  match x, y with
  | .error e, .error f =>
      if h : e = f then .isTrue (by rw [h]) else .isFalse (by intro hc; cases hc; exact h rfl)
  | .error _, .ok _ => .isFalse (by intro hc; cases hc)
  | .ok _, .error _ => .isFalse (by intro hc; cases hc)
  | .ok a, .ok b =>
      if h : a = b then .isTrue (by rw [h]) else .isFalse (by intro hc; cases hc; exact h rfl)

/-- Python `int(x)` applied to a real-valued expression: truncation toward
zero. -/
def pyInt (q : ℚ) : ℤ := if 0 ≤ q then ⌊q⌋ else ⌈q⌉

/-- A 4-tuple rectangle `(x0, y0, x1, y1)` as used throughout pbc.py
(upper-left corner inclusive, lower-right corner exclusive). -/
structure Rect where
  x0 : ℤ
  y0 : ℤ
  x1 : ℤ
  y1 : ℤ
deriving DecidableEq, Repr

/-- The pixels covered by a rectangle. -/
def Rect.Mem (r : Rect) (p : ℤ × ℤ) : Prop :=
  r.x0 ≤ p.1 ∧ p.1 < r.x1 ∧ r.y0 ≤ p.2 ∧ p.2 < r.y1

instance (r : Rect) (p : ℤ × ℤ) : Decidable (r.Mem p) := by
  unfold Rect.Mem; infer_instance

/-- Pixel-set inclusion of rectangles. -/
def Rect.Sub (r s : Rect) : Prop := ∀ p : ℤ × ℤ, r.Mem p → s.Mem p

/-- Two rectangles share no pixel. -/
def Rect.Disj (r s : Rect) : Prop := ∀ p : ℤ × ℤ, r.Mem p → ¬ s.Mem p

/-- `size` of a rectangle as computed by the `boxsize`/`delta` lambdas
(lines 131-134 of pbc.py). -/
def Rect.boxsize (r : Rect) : ℤ × ℤ := (r.x1 - r.x0, r.y1 - r.y0)

/-- Top-left corner, `rect[:2]` in pbc.py. -/
def Rect.corner (r : Rect) : ℤ × ℤ := (r.x0, r.y0)

/-- One header or body margin configuration: the four values the caller
supplies (fractions below 1, absolute pixel counts at 1 and above). -/
structure MarginSpec where
  left : ℚ
  right : ℚ
  top : ℚ
  bottom : ℚ
deriving DecidableEq, Repr

/-- Default header margins (pbc.py lines 160-198 defaults). -/
def defaultHeaderMargins : MarginSpec := ⟨1/10, 1/10, 1/5, 1/5⟩

/-- Default body margins (pbc.py lines 207-245 defaults). -/
def defaultBodyMargins : MarginSpec := ⟨3/20, 3/20, 1/10, 1/10⟩

/-- The data carried by the `ValueError` raised on a margin boundary
violation: the dimension named in the message, the dimension value
interpolated into the message, and the offending margin value. -/
structure BErr where
  dim_name : String
  dim_value : ℤ
  given : ℚ
deriving DecidableEq, Repr

/-- One margin value resolution from `Background.__init__`.  Mirrors the
four-line pattern repeated for each of the eight margins, e.g. lines
160-168:
the value is rejected when negative or above `checkDim`; below 1 it is a
fraction and the thickness is `int(deriveDim * value)`; otherwise it is an
absolute count `int(value)` whose factor is recomputed as
`thickness / deriveDim`.  In the source `checkDim` and `deriveDim`
coincide for six of the eight margins; for `body_top` and `body_bottom`
(lines 227-245) the check uses `body_width` while derivation and the
error message use `body_height`. -/
def marginCalc (checkDim : ℤ) (dimName : String) (reportDim deriveDim : ℤ)
    (v : ℚ) : Except BErr (ℚ × ℤ) :=
  if v < 0 ∨ (checkDim : ℚ) < v then .error ⟨dimName, reportDim, v⟩
  else if v < 1 then .ok (v, pyInt ((deriveDim : ℚ) * v))
  else .ok (((pyInt v : ℤ) : ℚ) / (deriveDim : ℚ), pyInt v)

/-- The state `Background.__init__` stores: image identity, dimensions,
the header-body ratio, and the eight resolved margin factor/thickness
pairs.  All rectangles of the region table are derived from these. -/
structure Background where
  image_name : String
  width : ℤ
  height : ℤ
  hbratio : ℚ
  header_margin_left_thickness_factor : ℚ
  header_margin_left_thickness : ℤ
  header_margin_right_thickness_factor : ℚ
  header_margin_right_thickness : ℤ
  header_margin_top_thickness_factor : ℚ
  header_margin_top_thickness : ℤ
  header_margin_bottom_thickness_factor : ℚ
  header_margin_bottom_thickness : ℤ
  body_margin_left_thickness_factor : ℚ
  body_margin_left_thickness : ℤ
  body_margin_right_thickness_factor : ℚ
  body_margin_right_thickness : ℤ
  body_margin_top_thickness_factor : ℚ
  body_margin_top_thickness : ℤ
  body_margin_bottom_thickness_factor : ℚ
  body_margin_bottom_thickness : ℤ
deriving DecidableEq, Repr

namespace Background

/-- pbc.py line 153. -/
def header_width (B : Background) : ℤ := B.width

/-- pbc.py line 154: `int(self.height * self.hbratio)`. -/
def header_height (B : Background) : ℤ := pyInt ((B.height : ℚ) * B.hbratio)

/-- pbc.py line 155. -/
def header_size (B : Background) : ℤ × ℤ := (B.header_width, B.header_height)

/-- pbc.py line 156. -/
def header_rect (B : Background) : Rect := ⟨0, 0, B.header_width, B.header_height⟩

/-- pbc.py line 201. -/
def body_width (B : Background) : ℤ := B.width

/-- pbc.py line 202: `int(self.height*(1-self.hbratio))`. -/
def body_height (B : Background) : ℤ := pyInt ((B.height : ℚ) * (1 - B.hbratio))

/-- pbc.py line 203. -/
def body_size (B : Background) : ℤ × ℤ := (B.body_width, B.body_height)

/-- pbc.py line 204. -/
def body_rect (B : Background) : Rect :=
  ⟨0, B.header_height, B.body_width, B.body_height + B.header_height⟩

/-- pbc.py lines 250-255. -/
def header_cont_rect (B : Background) : Rect :=
  ⟨B.header_margin_left_thickness,
   B.header_margin_top_thickness,
   B.header_width - B.header_margin_right_thickness,
   B.header_height - B.header_margin_bottom_thickness⟩

/-- pbc.py line 257. -/
def header_cont_width (B : Background) : ℤ := B.header_cont_rect.boxsize.1

/-- pbc.py line 258. -/
def header_cont_height (B : Background) : ℤ :=
  B.header_height - (B.header_margin_top_thickness + B.header_margin_bottom_thickness)

/-- pbc.py line 260. -/
def header_cont_size (B : Background) : ℤ × ℤ := B.header_cont_rect.boxsize

/-- pbc.py lines 263-268. -/
def header_margin_left_inclusive (B : Background) : Rect :=
  ⟨0, 0, B.header_margin_left_thickness, B.header_height⟩

/-- pbc.py lines 269-274. -/
def header_margin_right_inclusive (B : Background) : Rect :=
  ⟨B.header_width - B.header_margin_right_thickness, 0, B.header_width, B.header_height⟩

/-- pbc.py lines 275-280. -/
def header_margin_top_inclusive (B : Background) : Rect :=
  ⟨0, 0, B.header_width, B.header_margin_top_thickness⟩

/-- pbc.py lines 281-286. -/
def header_margin_bottom_inclusive (B : Background) : Rect :=
  ⟨0, B.header_margin_top_thickness + B.header_cont_height, B.header_width, B.header_height⟩

/-- pbc.py lines 288-293. -/
def header_margin_left_exclusive (B : Background) : Rect :=
  ⟨0, B.header_margin_top_thickness,
   B.header_margin_left_thickness,
   B.header_height - B.header_margin_bottom_thickness⟩

/-- pbc.py lines 294-299. -/
def header_margin_right_exclusive (B : Background) : Rect :=
  ⟨B.header_width - B.header_margin_right_thickness,
   B.header_margin_top_thickness,
   B.header_width,
   B.header_height - B.header_margin_bottom_thickness⟩

/-- pbc.py lines 300-305. -/
def header_margin_top_exclusive (B : Background) : Rect :=
  ⟨B.header_margin_left_thickness, 0,
   B.header_width - B.header_margin_right_thickness,
   B.header_margin_top_thickness⟩

/-- pbc.py lines 306-311. -/
def header_margin_bottom_exclusive (B : Background) : Rect :=
  ⟨B.header_margin_left_thickness,
   B.header_height - B.header_margin_bottom_thickness,
   B.header_width - B.header_margin_right_thickness,
   B.header_height⟩

/-- pbc.py line 316. -/
def header_margin_left_inclusive_size (B : Background) : ℤ × ℤ :=
  (B.header_margin_left_thickness, B.header_height)

/-- pbc.py line 317. -/
def header_margin_right_inclusive_size (B : Background) : ℤ × ℤ :=
  (B.header_margin_right_thickness, B.header_height)

/-- pbc.py line 318. -/
def header_margin_top_inclusive_size (B : Background) : ℤ × ℤ :=
  (B.header_width, B.header_margin_top_thickness)

/-- pbc.py line 319. -/
def header_margin_bottom_inclusive_size (B : Background) : ℤ × ℤ :=
  (B.header_width, B.header_margin_bottom_thickness)

/-- pbc.py line 321. -/
def header_margin_left_exclusive_size (B : Background) : ℤ × ℤ :=
  B.header_margin_left_exclusive.boxsize

/-- pbc.py line 322. -/
def header_margin_right_exclusive_size (B : Background) : ℤ × ℤ :=
  B.header_margin_right_exclusive.boxsize

/-- pbc.py line 323. -/
def header_margin_top_exclusive_size (B : Background) : ℤ × ℤ :=
  B.header_margin_top_exclusive.boxsize

/-- pbc.py line 324. -/
def header_margin_bottom_exclusive_size (B : Background) : ℤ × ℤ :=
  B.header_margin_bottom_exclusive.boxsize

/-- pbc.py lines 328-333; note the bottom edge is `self.height -
body_margin_bottom_thickness`, measured from the whole image. -/
def body_cont_rect (B : Background) : Rect :=
  ⟨B.body_margin_left_thickness,
   B.header_height + B.body_margin_top_thickness,
   B.body_width - B.body_margin_right_thickness,
   B.height - B.body_margin_bottom_thickness⟩

/-- pbc.py line 334. -/
def body_cont_width (B : Background) : ℤ :=
  B.body_width - (B.body_margin_left_thickness + B.body_margin_right_thickness)

/-- pbc.py line 335. -/
def body_cont_height (B : Background) : ℤ :=
  B.body_height - (B.body_margin_top_thickness + B.body_margin_bottom_thickness)

/-- pbc.py line 336. -/
def body_cont_size (B : Background) : ℤ × ℤ := (B.body_cont_width, B.body_cont_height)

/-- pbc.py lines 339-344. -/
def body_margin_left_inclusive (B : Background) : Rect :=
  ⟨0, B.header_height, B.body_margin_left_thickness, B.height⟩

/-- pbc.py lines 345-350. -/
def body_margin_right_inclusive (B : Background) : Rect :=
  ⟨B.body_width - B.body_margin_right_thickness, B.header_height, B.body_width, B.height⟩

/-- pbc.py lines 351-356. -/
def body_margin_top_inclusive (B : Background) : Rect :=
  ⟨0, B.header_height, B.body_width, B.header_height + B.body_margin_top_thickness⟩

/-- pbc.py lines 357-362. -/
def body_margin_bottom_inclusive (B : Background) : Rect :=
  ⟨0, B.height - B.body_margin_bottom_thickness, B.body_width, B.height⟩

/-- pbc.py lines 365-370. -/
def body_margin_left_exclusive (B : Background) : Rect :=
  ⟨0, B.header_height + B.body_margin_top_thickness,
   B.body_margin_left_thickness,
   B.height - B.body_margin_bottom_thickness⟩

/-- pbc.py lines 371-376. -/
def body_margin_right_exclusive (B : Background) : Rect :=
  ⟨B.body_width - B.body_margin_right_thickness,
   B.header_height + B.body_margin_top_thickness,
   B.body_width,
   B.height - B.body_margin_bottom_thickness⟩

/-- pbc.py lines 377-382. -/
def body_margin_top_exclusive (B : Background) : Rect :=
  ⟨B.body_margin_left_thickness, B.header_height,
   B.body_width - B.body_margin_right_thickness,
   B.header_height + B.body_margin_top_thickness⟩

/-- pbc.py lines 383-388. -/
def body_margin_bottom_exclusive (B : Background) : Rect :=
  ⟨B.body_margin_left_thickness,
   B.height - B.body_margin_bottom_thickness,
   B.body_width - B.body_margin_right_thickness,
   B.height⟩

/-- pbc.py lines 394-397. -/
def body_margin_left_inclusive_size (B : Background) : ℤ × ℤ :=
  B.body_margin_left_inclusive.boxsize

/-- pbc.py line 395. -/
def body_margin_right_inclusive_size (B : Background) : ℤ × ℤ :=
  B.body_margin_right_inclusive.boxsize

/-- pbc.py line 396. -/
def body_margin_top_inclusive_size (B : Background) : ℤ × ℤ :=
  B.body_margin_top_inclusive.boxsize

/-- pbc.py line 397. -/
def body_margin_bottom_inclusive_size (B : Background) : ℤ × ℤ :=
  B.body_margin_bottom_inclusive.boxsize

/-- pbc.py line 399. -/
def body_margin_left_exclusive_size (B : Background) : ℤ × ℤ :=
  B.body_margin_left_exclusive.boxsize

/-- pbc.py line 400. -/
def body_margin_right_exclusive_size (B : Background) : ℤ × ℤ :=
  B.body_margin_right_exclusive.boxsize

/-- pbc.py line 401. -/
def body_margin_top_exclusive_size (B : Background) : ℤ × ℤ :=
  B.body_margin_top_exclusive.boxsize

/-- pbc.py line 402. -/
def body_margin_bottom_exclusive_size (B : Background) : ℤ × ℤ :=
  B.body_margin_bottom_exclusive.boxsize

end Background

/-- `Background.__init__` (pbc.py lines 131-245): resolve the eight margin
values in source order, raising the boundary `ValueError` where the source
does.  `width`/`height` are the dimensions of the opened image, `hm`/`bm`
the header and body margin values after keyword-argument defaulting.
Note the exact check dimensions used by the source: `body_top` and
`body_bottom` are checked against `body_width` (lines 228 and 238) while
their error message and thickness derivation use `body_height`. -/
def mkBackground (image_name : String) (width height : ℤ) (hbratio : ℚ)
    (hm bm : MarginSpec) : Except BErr Background := do
  let header_width := width
  let header_height := pyInt ((height : ℚ) * hbratio)
  let body_width := width
  let body_height := pyInt ((height : ℚ) * (1 - hbratio))
  let (hlf, hlt) ← marginCalc header_width "Header width" header_width header_width hm.left
  let (hrf, hrt) ← marginCalc header_width "Header width" header_width header_width hm.right
  let (htf, htt) ← marginCalc header_height "Header height" header_height header_height hm.top
  let (hbf, hbt) ← marginCalc header_height "Header height" header_height header_height hm.bottom
  let (blf, blt) ← marginCalc body_width "Body width" body_width body_width bm.left
  let (brf, brt) ← marginCalc body_width "Body width" body_width body_width bm.right
  let (btf, btt) ← marginCalc body_width "Body height" body_height body_height bm.top
  let (bbf, bbt) ← marginCalc body_width "Body height" body_height body_height bm.bottom
  return { image_name := image_name, width := width, height := height, hbratio := hbratio,
           header_margin_left_thickness_factor := hlf, header_margin_left_thickness := hlt,
           header_margin_right_thickness_factor := hrf, header_margin_right_thickness := hrt,
           header_margin_top_thickness_factor := htf, header_margin_top_thickness := htt,
           header_margin_bottom_thickness_factor := hbf, header_margin_bottom_thickness := hbt,
           body_margin_left_thickness_factor := blf, body_margin_left_thickness := blt,
           body_margin_right_thickness_factor := brf, body_margin_right_thickness := brt,
           body_margin_top_thickness_factor := btf, body_margin_top_thickness := btt,
           body_margin_bottom_thickness_factor := bbf, body_margin_bottom_thickness := bbt }

/-- The model built from a 1000 by 800 image with all-default margins and
the default hbratio of 0.2 (the scenario of spec section 8). -/
def defaultBackground : Background :=
  { image_name := "pic.png", width := 1000, height := 800, hbratio := 1/5,
    header_margin_left_thickness_factor := 1/10, header_margin_left_thickness := 100,
    header_margin_right_thickness_factor := 1/10, header_margin_right_thickness := 100,
    header_margin_top_thickness_factor := 1/5, header_margin_top_thickness := 32,
    header_margin_bottom_thickness_factor := 1/5, header_margin_bottom_thickness := 32,
    body_margin_left_thickness_factor := 3/20, body_margin_left_thickness := 150,
    body_margin_right_thickness_factor := 3/20, body_margin_right_thickness := 150,
    body_margin_top_thickness_factor := 1/10, body_margin_top_thickness := 64,
    body_margin_bottom_thickness_factor := 1/10, body_margin_bottom_thickness := 64 }

/-- One value of the `__area` two-level mapping (pbc.py lines 404-444):
`(size tuple, top left corner location tuple, 4 tuple area rectangle)`.
Several entries of the `full` part are 2-tuples whose rectangle component
is commented out in the source (lines 409, 414-417); those carry
`rect := none`, and indexing position 2 on them raises `IndexError`. -/
structure AreaEntry where
  size : ℤ × ℤ
  origin : ℤ × ℤ
  rect : Option Rect
deriving DecidableEq, Repr

/-- The `__area` dictionary as built in `__init__` (lines 404-444), before
any alias binding: parts `full`, `header`, `body` with their ten region
keys each, plus the empty `__EMERGENCY` part (no keys, hence no match).
Absent keys are `none` (a `KeyError` in Python). -/
def baseArea (B : Background) (part region : String) : Option AreaEntry :=
  match part, region with
  | "full", "full" => some ⟨(B.width, B.height), (0, 0), some ⟨0, 0, B.width, B.height⟩⟩
  | "full", "inner" => some ⟨(20, 20), (20, 20), none⟩
  | "full", "top-incl" => some ⟨B.header_size, B.header_rect.corner, some B.header_rect⟩
  | "full", "top-excl" =>
      some ⟨B.header_cont_size, B.header_cont_rect.corner, some B.header_cont_rect⟩
  | "full", "bottom-incl" => some ⟨B.body_size, B.body_rect.corner, some B.body_rect⟩
  | "full", "bottom-excl" =>
      some ⟨B.body_cont_size, B.body_cont_rect.corner, some B.body_cont_rect⟩
  | "full", "left-incl" => some ⟨(20, 20), (10, 10), none⟩
  | "full", "left-excl" => some ⟨(20, 20), (10, 10), none⟩
  | "full", "right-incl" => some ⟨(20, 20), (10, 10), none⟩
  | "full", "right-excl" => some ⟨(20, 20), (10, 10), none⟩
  | "header", "full" => some ⟨B.header_size, B.header_rect.corner, some B.header_rect⟩
  | "header", "inner" =>
      some ⟨B.header_cont_size, B.header_cont_rect.corner, some B.header_cont_rect⟩
  | "header", "left-incl" =>
      some ⟨B.header_margin_left_inclusive_size, B.header_margin_left_inclusive.corner,
            some B.header_margin_left_inclusive⟩
  | "header", "left-excl" =>
      some ⟨B.header_margin_left_exclusive_size, B.header_margin_left_exclusive.corner,
            some B.header_margin_left_exclusive⟩
  | "header", "right-incl" =>
      some ⟨B.header_margin_right_inclusive_size, B.header_margin_right_inclusive.corner,
            some B.header_margin_right_inclusive⟩
  | "header", "right-excl" =>
      some ⟨B.header_margin_right_exclusive_size, B.header_margin_right_exclusive.corner,
            some B.header_margin_right_exclusive⟩
  | "header", "top-incl" =>
      some ⟨B.header_margin_top_inclusive_size, B.header_margin_top_inclusive.corner,
            some B.header_margin_top_inclusive⟩
  | "header", "top-excl" =>
      some ⟨B.header_margin_top_exclusive_size, B.header_margin_top_exclusive.corner,
            some B.header_margin_top_exclusive⟩
  | "header", "bottom-incl" =>
      some ⟨B.header_margin_bottom_inclusive_size, B.header_margin_bottom_inclusive.corner,
            some B.header_margin_bottom_inclusive⟩
  | "header", "bottom-excl" =>
      some ⟨B.header_margin_bottom_exclusive_size, B.header_margin_bottom_exclusive.corner,
            some B.header_margin_bottom_exclusive⟩
  | "body", "full" => some ⟨B.body_size, B.body_rect.corner, some B.body_rect⟩
  | "body", "inner" =>
      some ⟨B.body_cont_size, B.body_cont_rect.corner, some B.body_cont_rect⟩
  | "body", "left-incl" =>
      some ⟨B.body_margin_left_inclusive_size, B.body_margin_left_inclusive.corner,
            some B.body_margin_left_inclusive⟩
  | "body", "left-excl" =>
      some ⟨B.body_margin_left_exclusive_size, B.body_margin_left_exclusive.corner,
            some B.body_margin_left_exclusive⟩
  | "body", "right-incl" =>
      some ⟨B.body_margin_right_inclusive_size, B.body_margin_right_inclusive.corner,
            some B.body_margin_right_inclusive⟩
  | "body", "right-excl" =>
      some ⟨B.body_margin_right_exclusive_size, B.body_margin_right_exclusive.corner,
            some B.body_margin_right_exclusive⟩
  | "body", "top-incl" =>
      some ⟨B.body_margin_top_inclusive_size, B.body_margin_top_inclusive.corner,
            some B.body_margin_top_inclusive⟩
  | "body", "top-excl" =>
      some ⟨B.body_margin_top_exclusive_size, B.body_margin_top_exclusive.corner,
            some B.body_margin_top_exclusive⟩
  | "body", "bottom-incl" =>
      some ⟨B.body_margin_bottom_inclusive_size, B.body_margin_bottom_inclusive.corner,
            some B.body_margin_bottom_inclusive⟩
  | "body", "bottom-excl" =>
      some ⟨B.body_margin_bottom_exclusive_size, B.body_margin_bottom_exclusive.corner,
            some B.body_margin_bottom_exclusive⟩
  | _, _ => none

/-- The twelve toggle-bound alias keys (`left`, `right`, `top`, `bottom`
under each of `full`, `header`, `body`).  In Python these are ordinary
dictionary keys of `__area` that exist only after the `include_margins`
setter has run at least once; `none` models an absent key. -/
structure AliasTable where
  full_left : Option AreaEntry
  full_right : Option AreaEntry
  full_top : Option AreaEntry
  full_bottom : Option AreaEntry
  header_left : Option AreaEntry
  header_right : Option AreaEntry
  header_top : Option AreaEntry
  header_bottom : Option AreaEntry
  body_left : Option AreaEntry
  body_right : Option AreaEntry
  body_top : Option AreaEntry
  body_bottom : Option AreaEntry
deriving DecidableEq, Repr

/-- Alias state straight after `__init__`: no alias key exists yet (the
constructor sets `_include_margins = True` directly at line 148, without
running the setter). -/
def AliasTable.unbound : AliasTable :=
  ⟨none, none, none, none, none, none, none, none, none, none, none, none⟩

/-- The twelve assignments of the `include_margins` setter (pbc.py lines
494-505): every alias key is rebound to the `-incl` or `-excl` entry of
its part, per the new switch value. -/
def aliasBindings (B : Background) (switch : Bool) : AliasTable :=
  let in_or_ex := if switch then "-incl" else "-excl"
  { full_left := baseArea B "full" ("left" ++ in_or_ex)
    full_right := baseArea B "full" ("right" ++ in_or_ex)
    full_top := baseArea B "full" ("top" ++ in_or_ex)
    full_bottom := baseArea B "full" ("bottom" ++ in_or_ex)
    header_left := baseArea B "header" ("left" ++ in_or_ex)
    header_right := baseArea B "header" ("right" ++ in_or_ex)
    header_top := baseArea B "header" ("top" ++ in_or_ex)
    header_bottom := baseArea B "header" ("bottom" ++ in_or_ex)
    body_left := baseArea B "body" ("left" ++ in_or_ex)
    body_right := baseArea B "body" ("right" ++ in_or_ex)
    body_top := baseArea B "body" ("top" ++ in_or_ex)
    body_bottom := baseArea B "body" ("bottom" ++ in_or_ex) }

/-- The mutable region-model state of one `Background` instance: the
immutable geometry, the `_include_margins` flag, and the current alias
bindings of `__area`.  (The informational print statements and the
`__silent_include` flag that suppresses them carry no model state.) -/
structure BState where
  B : Background
  include_margins : Bool
  aliases : AliasTable
deriving DecidableEq, Repr

/-- State on leaving `__init__`: flag set to `True` at line 148, aliases
not yet bound. -/
def initState (B : Background) : BState := ⟨B, true, AliasTable.unbound⟩

/-- The `include_margins` setter (pbc.py lines 474-505): store the switch
and rebind all twelve aliases. -/
def includeMarginsSet (S : BState) (switch : Bool) : BState :=
  ⟨S.B, switch, aliasBindings S.B switch⟩

/-- `margins()` with no argument (pbc.py lines 700-704): flip the flag
through the setter. -/
def marginsToggle (S : BState) : BState :=
  if S.include_margins then includeMarginsSet S false else includeMarginsSet S true

/-- `margins(switch)` for the argument shapes the claims exercise
(pbc.py lines 694-704): `True`/`False` set explicitly, no argument
toggles.  (`switch="return"` only reads the flag and any other value is a
warning no-op; neither changes the state.) -/
def marginsMethod (S : BState) (switch : Option Bool) : BState :=
  match switch with
  | some true => includeMarginsSet S true
  | some false => includeMarginsSet S false
  | none => marginsToggle S

/-- Keys of `__area` after `del area_check['__EMERGENCY']` (pbc.py lines
521-523). -/
def area_parts : List String := ["full", "header", "body"]

/-- Keys of `__area['full']` at the membership test of line 526.  The
test runs after the two `margins()` calls of lines 517-518, so the four
alias keys are always present by then. -/
def fullRegionKeys : List String :=
  ["full", "inner", "top-incl", "top-excl", "bottom-incl", "bottom-excl",
   "left-incl", "left-excl", "right-incl", "right-excl",
   "left", "right", "top", "bottom"]

/-- Dictionary lookup `self.__area[part][region]` in a given state: the
twelve alias keys go through the alias table, everything else through the
construction-time entries. -/
def lookupArea (S : BState) (part region : String) : Option AreaEntry :=
  match part, region with
  | "full", "left" => S.aliases.full_left
  | "full", "right" => S.aliases.full_right
  | "full", "top" => S.aliases.full_top
  | "full", "bottom" => S.aliases.full_bottom
  | "header", "left" => S.aliases.header_left
  | "header", "right" => S.aliases.header_right
  | "header", "top" => S.aliases.header_top
  | "header", "bottom" => S.aliases.header_bottom
  | "body", "left" => S.aliases.body_left
  | "body", "right" => S.aliases.body_right
  | "body", "top" => S.aliases.body_top
  | "body", "bottom" => S.aliases.body_bottom
  | _, _ => baseArea S.B part region

/-- `__area_check` (pbc.py lines 514-530): force two `margins()` calls,
then degrade an unrecognized part to `full` and an unrecognized region
(membership tested against the `full` part) to `full`.  Returns the
state after the two toggles alongside the validated pair. -/
def area_check (S : BState) (part region : String) : BState × String × String :=
  let S2 := marginsMethod (marginsMethod S none) none
  let part2 := if part ∈ area_parts then part else "full"
  let region2 := if region ∈ fullRegionKeys then region else "full"
  (S2, part2, region2)

/-- Region resolution as the mutating operations use it: validate, then
look the validated pair up in `__area`. -/
def resolveEntry (S : BState) (part region : String) :
    BState × Option AreaEntry :=
  let (S2, p, r) := area_check S part region
  (S2, lookupArea S2 p r)

/-- An RGBA pixel value. -/
structure Pix where
  r : ℕ
  g : ℕ
  b : ℕ
  a : ℕ
deriving DecidableEq, Repr

/-- Modelled from the spec: a PIL image — a pixel mode string, a size,
and the pixel contents, as provided by the opaque 2D image library the
spec lists as a collaborator (spec sections 1 and 6). -/
structure Img where
  mode : String
  w : ℤ
  h : ℤ
  px : ℤ → ℤ → Pix

/-- Modelled from the spec: `image.crop(box)` — the sub-image of the box,
with local coordinates, size `(x1-x0, y1-y0)`, same pixel mode. -/
def Img.crop (im : Img) (rc : Rect) : Img :=
  ⟨im.mode, rc.x1 - rc.x0, rc.y1 - rc.y0, fun x y => im.px (rc.x0 + x) (rc.y0 + y)⟩

/-- Modelled from the spec: `canvas.paste(src, (x, y))` — opaque paste:
inside the pasted box the source pixel replaces the canvas pixel, outside
it the canvas is untouched. -/
def Img.paste (canvas src : Img) (c : ℤ × ℤ) : Img :=
  { canvas with
    px := fun x y =>
      if c.1 ≤ x ∧ x < c.1 + src.w ∧ c.2 ≤ y ∧ y < c.2 + src.h then
        src.px (x - c.1) (y - c.2)
      else canvas.px x y }

/-- An alpha-compositing operator: combines a source pixel (carrying
alpha) with a destination pixel.  The exact blending arithmetic of PIL is
outside the repository; theorems quantify over it. -/
def Comp : Type := Pix → Pix → Pix

/-- Modelled from the spec: `canvas.paste(src, (x, y), src)` — paste with
the source as its own alpha mask: inside the box the result is the alpha
composite of source over canvas, outside it the canvas is untouched. -/
def Img.pasteAlpha (canvas : Img) (comp : Comp) (src : Img) (c : ℤ × ℤ) : Img :=
  { canvas with
    px := fun x y =>
      if c.1 ≤ x ∧ x < c.1 + src.w ∧ c.2 ≤ y ∧ y < c.2 + src.h then
        comp (src.px (x - c.1) (y - c.2)) (canvas.px x y)
      else canvas.px x y }

/-- Modelled from the spec: `image.putalpha(alpha)` — adjoin the alpha
band taken from a mask image, making the mode RGBA. -/
def Img.putalpha (im alpha : Img) : Img :=
  ⟨"RGBA", im.w, im.h,
   fun x y => ⟨(im.px x y).r, (im.px x y).g, (im.px x y).b, (alpha.px x y).r⟩⟩

/-- Modelled from the spec: `image.convert(mode="RGBA")`; only the mode
tag matters to the paste dispatch. -/
def Img.convertRGBA (im : Img) : Img := { im with mode := "RGBA" }

/-- Modelled from the spec: the named filter kernels and blending of the
image library (`GaussianBlur`, `MaxFilter(3)`, `MinFilter(3)`,
`Image.blend`), kept opaque; the spec fixes only that a Gaussian blur of
radius 0 is a pass-through, which theorems take as a hypothesis. -/
structure ImageLib where
  gaussianBlur : ℤ → Img → Img
  maxFilter3 : Img → Img
  minFilter3 : Img → Img
  blend : Img → Img → ℚ → Img

/-- `__paste_image` (pbc.py lines 546-562): dispatch on the pixel mode of
the image being pasted — plain paste for RGB, alpha paste for RGBA, and
a warning without mutation otherwise.  The Python signature resolves
`self.__area[part][region][1]` when no explicit coordinate is given;
callers here pass that origin (or the anchor) directly. -/
def paste_image (comp : Comp) (canvas image : Img) (c : ℤ × ℤ) : Img :=
  if image.mode = "RGB" then canvas.paste image c
  else if image.mode = "RGBA" then canvas.pasteAlpha comp image c
  else canvas

/-- The magenta missing-image placeholder
`Image.new('RGBA', self.__area[part][region][0], (255,0,255,230))`
(pbc.py line 542). -/
def placeholderImage (entry : AreaEntry) : Img :=
  ⟨"RGBA", entry.size.1, entry.size.2, fun _ _ => ⟨255, 0, 255, 230⟩⟩

/-- What the caller hands `__try_open_image` / `image()` as a picture:
nothing at all, a reference that cannot be opened (`FileNotFoundError` or
`AttributeError`), or an image that opens. -/
inductive PicInput where
  | noPicture : PicInput
  | unopenable : PicInput
  | opened : Img → PicInput

/-- `__try_open_image` (pbc.py lines 536-544): an image that opens is
used as is; otherwise the magenta placeholder sized to the region is
substituted and the operation renamed. -/
def try_open_image (entry : AreaEntry) (pic : PicInput) : Img × String :=
  match pic with
  | .opened im => (im, "image")
  | _ => (placeholderImage entry, "??image??")

/-- `Filter_options` (pbc.py lines 572-578): `None` and `raw` are a
radius-0 Gaussian blur, `blur` a radius-`int(value)` blur, `maxFilter` /
`minFilter` fixed 3-by-3 kernels; any other name is not a key. -/
def Filter_options (lib : ImageLib) (value : ℚ) (operation : Option String) :
    Option (Img → Img) :=
  match operation with
  | none => some (fun image => lib.gaussianBlur 0 image)
  | some "raw" => some (fun image => lib.gaussianBlur 0 image)
  | some "blur" => some (fun image => lib.gaussianBlur (pyInt value) image)
  | some "maxFilter" => some lib.maxFilter3
  | some "minFilter" => some lib.minFilter3
  | some _ => none

/-- The whole observable state an instance owns: region-model state, the
pristine copy `__imco` (line 139, never altered), and the working buffer
`im_obj`. -/
structure PbcState where
  bs : BState
  imco : Img
  im_obj : Img

/-- `filter` (pbc.py lines 565-597): resolve the region, degrade an
unknown operation to `None`, crop the region rectangle from the pristine
copy for `raw` and from the working buffer otherwise, apply the filter,
and paste the result back at the region origin.  `none` is an uncaught
exception: the `[2]` rectangle lookup on a 2-tuple entry (`IndexError`)
or a missing dictionary key (`KeyError`). -/
def filterMethod (lib : ImageLib) (ps : PbcState) (operation : Option String)
    (part region : String) (value : ℚ) : Option PbcState :=
  let res := area_check ps.bs part region
  let bs := res.1
  let p := res.2.1
  let r := res.2.2
  let op := if (Filter_options lib value operation).isSome then operation else none
  match lookupArea bs p r with
  | none => none
  | some entry =>
    match entry.rect with
    | none => none
    | some rc =>
      let cropped := if op = some "raw" then ps.imco.crop rc else ps.im_obj.crop rc
      match Filter_options lib value op with
      | none => none
      | some fl =>
        some { ps with bs := bs, im_obj := ps.im_obj.paste (fl cropped) entry.origin }

/-- `image` (pbc.py lines 630-682): resolve the region; substitute the
empty mask when no picture is given or the placeholder when it cannot be
opened; optionally synthesize transparency; with `borders=True` paste
onto a scratch copy of the working buffer (at the region origin or the
anchor), crop the region rectangle out of the scratch copy and paste the
crop back at the region origin; with `borders=False` paste directly; any
other `borders` value is a warning no-op.  `none` is an uncaught
exception (missing key or missing rectangle component). -/
def imageMethod (comp : Comp) (lib : ImageLib) (ps : PbcState) (picture : PicInput)
    (part region : String) (borders : Option Bool) (anchor : Option (ℤ × ℤ))
    (transparency : ℤ) : Option PbcState :=
  let res := area_check ps.bs part region
  let bs := res.1
  let p := res.2.1
  let r := res.2.2
  match lookupArea bs p r with
  | none => none
  | some entry =>
    let empty_alpha : Img := ⟨"L", bs.B.width, bs.B.height, fun _ _ => ⟨0, 0, 0, 0⟩⟩
    let pic1 := match picture with
      | .noPicture => empty_alpha
      | q => (try_open_image entry q).1
    let image_copy := ps.im_obj
    let pic2 := if transparency < 255 ∧ pic1.mode ≠ "RGBA" then
        lib.blend (pic1.putalpha empty_alpha) empty_alpha.convertRGBA (1/2)
      else pic1
    match borders with
    | some true =>
      let canvas := match anchor with
        | none => paste_image comp image_copy pic2 entry.origin
        | some a => paste_image comp image_copy pic2 a
      match entry.rect with
      | none => none
      | some rc =>
        some { ps with bs := bs, im_obj := paste_image comp ps.im_obj (canvas.crop rc) entry.origin }
    | some false =>
      some { ps with bs := bs, im_obj := paste_image comp ps.im_obj pic2 entry.origin }
    | none => some { ps with bs := bs }

/-- Modelled from the spec: `os.path.split` for the relative
forward-slash paths the claims use — directory component (without the
separator) and base name, split at the last slash. -/
def splitPath (s : String) : String × String :=
  let r := s.data.reverse
  (String.mk (((r.dropWhile (fun c => c ≠ '/')).drop 1).reverse),
   String.mk ((r.takeWhile (fun c => c ≠ '/')).reverse))

/-- Python `name.split('.')[-1]`: everything after the last dot (the
whole string when there is no dot). -/
def extSplit (s : String) : String :=
  String.mk ((s.data.reverse.takeWhile (fun c => c ≠ '.')).reverse)

/-- What a completed `save` writes: output file name, format, directory. -/
structure SaveResult where
  filename : String
  format : String
  path : String
deriving DecidableEq, Repr

set_option linter.unusedVariables false in
/-- `save` (pbc.py lines 721-783): resolve the target directory from the
process-wide `save_location`, the `name` argument and the `location`
arguments; skip the save (returning `none`) when both an explicit
directory and `location` are given or the directory does not exist;
normalize `jpg` to `jpeg`; and name the output `"pbc-" + im_name`, where
`im_name` is the base name of the `name` argument (line 728, reused at
line 772).  A `name` of Python `None` raises `TypeError` inside
`os.path.split` (line 725 or 728) before anything is written. -/
def saveMethod (save_location image_name : String) (name : Option String)
    (location : List String) (pathExists : String → Bool) (cwd : String) :
    Option SaveResult :=
  match name with
  | none => none
  | some n =>
    let im_path := if save_location = "" then (splitPath n).1 else save_location
    let im_name := (splitPath n).2
    let fmt0 := extSplit im_name
    if location ≠ [] ∧ im_path ≠ "" then none
    else
      let pathOpt : Option String :=
        if location = [] ∧ im_path = "" then some cwd
        else if location ≠ [] ∧ im_path = "" then
          let pth := String.intercalate "/" location
          if pathExists pth then some pth else none
        else if pathExists im_path then some im_path else none
      match pathOpt with
      | none => none
      | some pth =>
        let fmt := if fmt0 = "jpg" then "jpeg" else fmt0
        some ⟨"pbc-" ++ im_name, fmt, pth⟩

/-- Extract the model of a construction known to succeed (falls back to
the default model, for totality only). -/
def okOr (e : Except BErr Background) : Background :=
  match e with
  | .ok b => b
  | .error _ => defaultBackground

/-- Construction on a 1000 by 801 image with defaults: the two height
floors lose a pixel (`160 + 640 < 801`). -/
def bg801 : Background :=
  okOr (mkBackground "pic.png" 1000 801 (1/5) defaultHeaderMargins defaultBodyMargins)

/-- Construction on the default image with `body_top = 700`: accepted by
the width-based check of line 228 although 700 exceeds the body height
of 640. -/
def bgTop700 : Background :=
  okOr (mkBackground "pic.png" 1000 800 (1/5) defaultHeaderMargins ⟨3/20, 3/20, 700, 1/10⟩)

/-- The vertical span the body margin rectangles are laid out in: from
the bottom of the header to the bottom of the image (their coordinates
at pbc.py lines 328-388 all end at `self.height`). -/
def bodySpanRect (B : Background) : Rect :=
  ⟨0, B.header_height, B.body_width, B.height⟩

/-- The five pieces that would have to tile the header under claim C2:
the inner rectangle and the four inclusive margin bands. -/
def headerTilingPieces (B : Background) : List Rect :=
  [B.header_cont_rect,
   B.header_margin_left_inclusive, B.header_margin_right_inclusive,
   B.header_margin_top_inclusive, B.header_margin_bottom_inclusive]

/-- `pieces` tile `area` exactly: together they cover precisely the
pixels of `area`, and no two pieces share a pixel. -/
def TilesExactly (area : Rect) (pieces : List Rect) : Prop :=
  (∀ p : ℤ × ℤ, area.Mem p ↔ ∃ rc ∈ pieces, Rect.Mem rc p) ∧
  List.Pairwise Rect.Disj pieces

/-- The amended containment-and-partition property of claim C2 for a
constructed model `B`: every exclusive margin rectangle is contained in
its inclusive one; the header inclusive rectangles and inner rectangle
are contained in the header rectangle; the body inclusive rectangles and
inner rectangle are contained in the body span (which equals the body
rectangle exactly when the two height floors lose nothing); and the
inner rectangle of each area is exactly the area minus the four
inclusive bands — disjoint from each band, and jointly covering. -/
def C2Conclusion (B : Background) : Prop :=
  (Rect.Sub B.header_margin_left_exclusive B.header_margin_left_inclusive
    ∧ Rect.Sub B.header_margin_right_exclusive B.header_margin_right_inclusive
    ∧ Rect.Sub B.header_margin_top_exclusive B.header_margin_top_inclusive
    ∧ Rect.Sub B.header_margin_bottom_exclusive B.header_margin_bottom_inclusive)
  ∧ (Rect.Sub B.header_margin_left_inclusive B.header_rect
    ∧ Rect.Sub B.header_margin_right_inclusive B.header_rect
    ∧ Rect.Sub B.header_margin_top_inclusive B.header_rect
    ∧ Rect.Sub B.header_margin_bottom_inclusive B.header_rect)
  ∧ Rect.Sub B.header_cont_rect B.header_rect
  ∧ (∀ p : ℤ × ℤ, B.header_rect.Mem p →
      (B.header_cont_rect.Mem p ↔
        ¬ B.header_margin_left_inclusive.Mem p
        ∧ ¬ B.header_margin_right_inclusive.Mem p
        ∧ ¬ B.header_margin_top_inclusive.Mem p
        ∧ ¬ B.header_margin_bottom_inclusive.Mem p))
  ∧ (Rect.Sub B.body_margin_left_exclusive B.body_margin_left_inclusive
    ∧ Rect.Sub B.body_margin_right_exclusive B.body_margin_right_inclusive
    ∧ Rect.Sub B.body_margin_top_exclusive B.body_margin_top_inclusive
    ∧ Rect.Sub B.body_margin_bottom_exclusive B.body_margin_bottom_inclusive)
  ∧ (Rect.Sub B.body_margin_left_inclusive (bodySpanRect B)
    ∧ Rect.Sub B.body_margin_right_inclusive (bodySpanRect B)
    ∧ Rect.Sub B.body_margin_top_inclusive (bodySpanRect B)
    ∧ Rect.Sub B.body_margin_bottom_inclusive (bodySpanRect B))
  ∧ Rect.Sub B.body_cont_rect (bodySpanRect B)
  ∧ (∀ p : ℤ × ℤ, (bodySpanRect B).Mem p →
      (B.body_cont_rect.Mem p ↔
        ¬ B.body_margin_left_inclusive.Mem p
        ∧ ¬ B.body_margin_right_inclusive.Mem p
        ∧ ¬ B.body_margin_top_inclusive.Mem p
        ∧ ¬ B.body_margin_bottom_inclusive.Mem p))
  ∧ (B.header_height + B.body_height = B.height → bodySpanRect B = B.body_rect)

/-- A trivial instantiation of the opaque image library: radius-0 blur is
the identity, as the spec requires of the real library. -/
def trivLib : ImageLib :=
  ⟨fun _ im => im, fun im => im, fun im => im, fun a _ _ => a⟩

/-- A trivial compositing operator (source wins). -/
def overComp : Comp := fun s _ => s

/-- A concrete RGB working buffer for witnesses. -/
def testImg : Img :=
  ⟨"RGB", 1000, 800, fun x y => ⟨x.natAbs % 256, y.natAbs % 256, 3, 255⟩⟩

/-- A second concrete RGB buffer, everywhere different from `testImg` in
the blue channel, standing for a mutated working buffer. -/
def testImg2 : Img :=
  ⟨"RGB", 1000, 800, fun _ _ => ⟨9, 9, 9, 255⟩⟩

/-- The canonical state with the aliases bound per the flag — the state
every `Background` is in from the first `margins()` call onward. -/
def canonState (B : Background) (f : Bool) : BState := ⟨B, f, aliasBindings B f⟩

/-- A concrete canonical state over the default model. -/
def S0 : BState := canonState defaultBackground true

/-- A concrete whole-program state: default geometry, pristine copy
`testImg`, working buffer already mutated to `testImg2`. -/
def ps0 : PbcState := ⟨S0, testImg, testImg2⟩

/-- State after a concrete `filter("raw", "header", "inner")` call. -/
def ps1c : PbcState := (filterMethod trivLib ps0 (some "raw") "header" "inner" 0).getD ps0

/-- State after a further pass-through `filter(None, "header", "inner")`
call. -/
def ps2c : PbcState := (filterMethod trivLib ps1c none "header" "inner" 0).getD ps0

/-- State after a concrete
`image(picture="missing.png", part="body", region="full", borders=True)`
call whose picture cannot be opened. -/
def ps8c : PbcState :=
  (imageMethod overComp trivLib ps0 .unopenable "body" "full" (some true) none 255).getD ps0

theorem pyInt_of_nonneg {q : ℚ} (h : 0 ≤ q) : pyInt q = ⌊q⌋ := by
  simp [pyInt, h]

theorem pyInt_nonneg {q : ℚ} (h : 0 ≤ q) : 0 ≤ pyInt q := by
  rw [pyInt_of_nonneg h]
  exact Int.le_floor.mpr (by exact_mod_cast h)

theorem pyInt_le_of_le {q : ℚ} {d : ℤ} (h0 : 0 ≤ q) (h : q ≤ (d : ℚ)) : pyInt q ≤ d := by
  rw [pyInt_of_nonneg h0]
  exact (Int.floor_le_floor h).trans_eq (Int.floor_intCast d)

/-- A successful `marginCalc` yields a nonnegative thickness bounded by
the larger of the derivation dimension and the check dimension. -/
theorem marginCalc_ok_bounds {cd rd dim : ℤ} {nmm : String} {v f : ℚ} {th : ℤ}
    (hdim : 0 ≤ dim) (h : marginCalc cd nmm rd dim v = .ok (f, th)) :
    0 ≤ th ∧ th ≤ max dim cd := by
  unfold marginCalc at h
  by_cases h1 : v < 0 ∨ (cd : ℚ) < v
  · simp [h1] at h
  · rw [if_neg h1] at h
    push_neg at h1
    obtain ⟨hv0, hvcd⟩ := h1
    by_cases h2 : v < 1
    · rw [if_pos h2] at h
      obtain ⟨-, hth⟩ : f = v ∧ th = pyInt ((dim : ℚ) * v) := by
        have := Except.ok.inj h
        exact ⟨(Prod.mk.injEq _ _ _ _ ▸ this).1.symm, (Prod.mk.injEq _ _ _ _ ▸ this).2.symm⟩
      subst hth
      constructor
      · exact pyInt_nonneg (mul_nonneg (by exact_mod_cast hdim) hv0)
      · refine le_trans (pyInt_le_of_le (mul_nonneg (by exact_mod_cast hdim) hv0) ?_)
          (le_max_left _ _)
        calc (dim : ℚ) * v ≤ (dim : ℚ) * 1 := by
              exact mul_le_mul_of_nonneg_left (le_of_lt h2) (by exact_mod_cast hdim)
          _ = (dim : ℚ) := mul_one _
    · rw [if_neg h2] at h
      obtain ⟨-, hth⟩ : f = ((pyInt v : ℤ) : ℚ) / (dim : ℚ) ∧ th = pyInt v := by
        have := Except.ok.inj h
        exact ⟨(Prod.mk.injEq _ _ _ _ ▸ this).1.symm, (Prod.mk.injEq _ _ _ _ ▸ this).2.symm⟩
      subst hth
      have hv1 : (1 : ℚ) ≤ v := not_lt.mp h2
      constructor
      · exact pyInt_nonneg (le_trans zero_le_one hv1)
      · exact le_trans (pyInt_le_of_le (le_trans zero_le_one hv1) hvcd) (le_max_right _ _)

theorem except_bind_ok {ε α β : Type} {e : Except ε α} {k : α → Except ε β} {b : β}
    (h : e >>= k = .ok b) : ∃ a, e = .ok a ∧ k a = .ok b := by
  cases e with
  | error err => simp [Bind.bind, Except.bind] at h
  | ok a => exact ⟨a, rfl, by simpa [Bind.bind, Except.bind] using h⟩

/-- Unpacking a successful construction: the stored identity fields and
the eight margin resolutions, with the exact dimensions each one is
checked against and derived from in the source. -/
theorem mkBackground_ok_spec {nm : String} {w hgt : ℤ} {ratio : ℚ}
    {hm bm : MarginSpec} {B : Background}
    (hok : mkBackground nm w hgt ratio hm bm = .ok B) :
    B.image_name = nm ∧ B.width = w ∧ B.height = hgt ∧ B.hbratio = ratio ∧
    marginCalc w "Header width" w w hm.left
      = .ok (B.header_margin_left_thickness_factor, B.header_margin_left_thickness) ∧
    marginCalc w "Header width" w w hm.right
      = .ok (B.header_margin_right_thickness_factor, B.header_margin_right_thickness) ∧
    marginCalc (pyInt ((hgt : ℚ) * ratio)) "Header height" (pyInt ((hgt : ℚ) * ratio))
        (pyInt ((hgt : ℚ) * ratio)) hm.top
      = .ok (B.header_margin_top_thickness_factor, B.header_margin_top_thickness) ∧
    marginCalc (pyInt ((hgt : ℚ) * ratio)) "Header height" (pyInt ((hgt : ℚ) * ratio))
        (pyInt ((hgt : ℚ) * ratio)) hm.bottom
      = .ok (B.header_margin_bottom_thickness_factor, B.header_margin_bottom_thickness) ∧
    marginCalc w "Body width" w w bm.left
      = .ok (B.body_margin_left_thickness_factor, B.body_margin_left_thickness) ∧
    marginCalc w "Body width" w w bm.right
      = .ok (B.body_margin_right_thickness_factor, B.body_margin_right_thickness) ∧
    marginCalc w "Body height" (pyInt ((hgt : ℚ) * (1 - ratio)))
        (pyInt ((hgt : ℚ) * (1 - ratio))) bm.top
      = .ok (B.body_margin_top_thickness_factor, B.body_margin_top_thickness) ∧
    marginCalc w "Body height" (pyInt ((hgt : ℚ) * (1 - ratio)))
        (pyInt ((hgt : ℚ) * (1 - ratio))) bm.bottom
      = .ok (B.body_margin_bottom_thickness_factor, B.body_margin_bottom_thickness) := by
  unfold mkBackground at hok
  obtain ⟨a1, e1, hok⟩ := except_bind_ok hok
  obtain ⟨f1, t1⟩ := a1
  obtain ⟨a2, e2, hok⟩ := except_bind_ok hok
  obtain ⟨f2, t2⟩ := a2
  obtain ⟨a3, e3, hok⟩ := except_bind_ok hok
  obtain ⟨f3, t3⟩ := a3
  obtain ⟨a4, e4, hok⟩ := except_bind_ok hok
  obtain ⟨f4, t4⟩ := a4
  obtain ⟨a5, e5, hok⟩ := except_bind_ok hok
  obtain ⟨f5, t5⟩ := a5
  obtain ⟨a6, e6, hok⟩ := except_bind_ok hok
  obtain ⟨f6, t6⟩ := a6
  obtain ⟨a7, e7, hok⟩ := except_bind_ok hok
  obtain ⟨f7, t7⟩ := a7
  obtain ⟨a8, e8, hok⟩ := except_bind_ok hok
  obtain ⟨f8, t8⟩ := a8
  simp only [Pure.pure, Except.pure] at hok
  have hB := Except.ok.inj hok
  subst hB
  exact ⟨rfl, rfl, rfl, rfl, e1, e2, e3, e4, e5, e6, e7, e8⟩

/-- C1: the boundary validation is faithful to the claim for the header
margins and for body left and right, but for body top and bottom the
source (pbc.py lines 228 and 238) compares against `body_width` while
the claim — like the error message of the code itself — names the body
height.  Constructing the model on a 1000 by 800 image with
`body_top = 700` succeeds even though 700 exceeds the governing body
height 640, and on a 100 by 1000 image `body_top = 500` raises even
though 500 is within the governing body height 800 (the raised error
reporting exactly that height). -/
theorem bodyTop_boundary_check_uses_width :
    (mkBackground "pic.png" 1000 800 (1/5) defaultHeaderMargins
        ⟨3/20, 3/20, 700, 1/10⟩).toOption.isSome = true
    ∧ bgTop700.body_height = 640 ∧ (640 : ℚ) < 700
    ∧ mkBackground "pic.png" 100 1000 (1/5) defaultHeaderMargins ⟨0, 0, 500, 0⟩
        = .error ⟨"Body height", 800, 500⟩
    ∧ (500 : ℚ) ≤ 800 := by
  exact ⟨by decide, by decide, by decide, by decide, by decide⟩

/-- C3: on a 1000 by 800 image with default margins and hbratio 0.2 the
construction succeeds with header height 160, body height 640, header
inner rectangle (100, 32, 900, 128) and body inner rectangle
(150, 224, 850, 736). -/
theorem default_scenario_geometry :
    mkBackground "pic.png" 1000 800 (1/5) defaultHeaderMargins defaultBodyMargins
      = .ok defaultBackground
    ∧ defaultBackground.header_height = 160
    ∧ defaultBackground.body_height = 640
    ∧ defaultBackground.header_cont_rect = ⟨100, 32, 900, 128⟩
    ∧ defaultBackground.body_cont_rect = ⟨150, 224, 850, 736⟩ := by
  exact ⟨by decide, by decide, by decide, by decide, by decide⟩

/-- C6: a margin supplied as a fraction f with 0 ≤ f < 1 stores the
thickness floor(f times the governing dimension), and a value that went
through the absolute-pixel branch round-trips: re-supplying the stored
thickness reproduces the same thickness. -/
theorem margin_fraction_floor_and_roundtrip (cd rd dim : ℤ) (nmm : String) (f v : ℚ)
    (hcd : 1 ≤ cd) (hdim : 0 ≤ dim) (hf0 : 0 ≤ f) (hf1 : f < 1)
    (hv1 : 1 ≤ v) (hvcd : v ≤ (cd : ℚ)) :
    marginCalc cd nmm rd dim f = .ok (f, ⌊(dim : ℚ) * f⌋)
    ∧ ∀ fr th, marginCalc cd nmm rd dim v = .ok (fr, th) →
        marginCalc cd nmm rd dim ((th : ℤ) : ℚ) = .ok (((th : ℤ) : ℚ) / (dim : ℚ), th) := by
  constructor
  · unfold marginCalc
    rw [if_neg, if_pos hf1]
    · rw [pyInt_of_nonneg (mul_nonneg (by exact_mod_cast hdim) hf0)]
    · push_neg
      exact ⟨hf0, hf1.le.trans (by exact_mod_cast hcd)⟩
  · intro fr th h
    unfold marginCalc at h
    rw [if_neg (by push_neg; exact ⟨le_trans zero_le_one hv1, hvcd⟩),
        if_neg (not_lt.mpr hv1)] at h
    have hth : th = pyInt v := ((Prod.mk.injEq _ _ _ _ ▸ Except.ok.inj h).2).symm ▸ rfl
    have hth2 : th = ⌊v⌋ := by
      rw [hth, pyInt_of_nonneg (le_trans zero_le_one hv1)]
    have hth1 : 1 ≤ th := by
      rw [hth2]; exact Int.le_floor.mpr (by exact_mod_cast hv1)
    have hthcd : th ≤ cd := by
      rw [hth2]
      exact (Int.floor_le_floor hvcd).trans_eq (Int.floor_intCast cd)
    unfold marginCalc
    rw [if_neg, if_neg, pyInt_of_nonneg (by exact_mod_cast le_trans zero_le_one hth1),
        Int.floor_intCast]
    · exact not_lt.mpr (by exact_mod_cast hth1)
    · push_neg
      refine ⟨by positivity, by exact_mod_cast hthcd⟩

/-- Witness for C6 at check dimension 10, derivation dimension 10,
fraction one half, absolute value 3. -/
theorem margin_fraction_floor_and_roundtrip_witness :
    marginCalc 10 "Header width" 10 10 (1/2) = .ok (1/2, ⌊((10 : ℤ) : ℚ) * (1/2)⌋)
    ∧ ∀ fr th, marginCalc 10 "Header width" 10 10 3 = .ok (fr, th) →
        marginCalc 10 "Header width" 10 10 ((th : ℤ) : ℚ)
          = .ok (((th : ℤ) : ℚ) / ((10 : ℤ) : ℚ), th) :=
  margin_fraction_floor_and_roundtrip 10 10 10 "Header width" (1/2) 3
    (by decide) (by decide) (by decide) (by decide) (by decide) (by decide)

/-- Two consecutive no-argument toggles land back on the original flag
with the aliases bound canonically for it. -/
theorem marginsToggle_marginsToggle (S : BState) :
    marginsToggle (marginsToggle S) = canonState S.B S.include_margins := by
  unfold marginsToggle includeMarginsSet canonState
  cases hf : S.include_margins <;> simp [hf]

theorem area_check_eq (S : BState) (part region : String) :
    area_check S part region =
      (canonState S.B S.include_margins,
       if part ∈ area_parts then part else "full",
       if region ∈ fullRegionKeys then region else "full") := by
  unfold area_check marginsMethod
  rw [marginsToggle_marginsToggle]

/-- In a canonically-bound state every recognized part and region key has
an entry. -/
theorem lookupArea_canon_isSome (B : Background) (f : Bool) {p r : String}
    (hp : p ∈ area_parts) (hr : r ∈ fullRegionKeys) :
    (lookupArea (canonState B f) p r).isSome = true := by
  fin_cases hp <;> fin_cases hr <;> cases f <;> rfl

/-- C4: toggling the include-margins flag twice in a row restores the
flag and rebinds every alias in the full, header and body tables to its
previous entry, and resolving any (part, region) pair before versus
after the double toggle yields the identical entry (size, origin and
rectangle).  The hypothesis states that the aliases are currently bound
per the flag — true in every state from the first setter run onward,
and the setter runs inside every resolution. -/
theorem double_toggle_restores (S : BState)
    (hS : S.aliases = aliasBindings S.B S.include_margins) :
    marginsToggle (marginsToggle S) = S ∧
    ∀ part region, resolveEntry (marginsToggle (marginsToggle S)) part region
        = resolveEntry S part region := by
  have h2 : marginsToggle (marginsToggle S) = S := by
    rw [marginsToggle_marginsToggle]
    cases S with
    | mk B fl al =>
      simp only at hS
      simp [canonState, hS]
  exact ⟨h2, fun _ _ => by rw [h2]⟩

/-- Witness for C4 at the canonical default state and the pair
(header, inner). -/
theorem double_toggle_restores_witness :
    marginsToggle (marginsToggle S0) = S0 ∧
    resolveEntry (marginsToggle (marginsToggle S0)) "header" "inner"
      = resolveEntry S0 "header" "inner" :=
  ⟨(double_toggle_restores S0 rfl).1,
   (double_toggle_restores S0 rfl).2 "header" "inner"⟩

/-- C5: region resolution never raises — an unrecognized part degrades
to `full`, an unrecognized region degrades to `full`, the degraded pair
always has an entry, and the (full, full) entry is the whole-image
rectangle (0, 0, width, height). -/
theorem resolution_degrades_to_full (S : BState) (part region : String) :
    (part ∉ area_parts → (area_check S part region).2.1 = "full")
    ∧ (region ∉ fullRegionKeys → (area_check S part region).2.2 = "full")
    ∧ (lookupArea (area_check S part region).1 (area_check S part region).2.1
        (area_check S part region).2.2).isSome = true
    ∧ lookupArea (area_check S part region).1 "full" "full"
        = some ⟨(S.B.width, S.B.height), (0, 0), some ⟨0, 0, S.B.width, S.B.height⟩⟩ := by
  rw [area_check_eq]
  refine ⟨fun h => by simp [h], fun h => by simp [h], ?_, rfl⟩
  apply lookupArea_canon_isSome
  · by_cases h : part ∈ area_parts
    · simp only [if_pos h]; exact h
    · simp only [if_neg h]; decide
  · by_cases h : region ∈ fullRegionKeys
    · simp only [if_pos h]; exact h
    · simp only [if_neg h]; decide

/-- Witness for C5: two unrecognized names over the default state. -/
theorem resolution_degrades_to_full_witness :
    (area_check S0 "bogus" "nope").2.1 = "full"
    ∧ (area_check S0 "bogus" "nope").2.2 = "full"
    ∧ (lookupArea (area_check S0 "bogus" "nope").1 (area_check S0 "bogus" "nope").2.1
        (area_check S0 "bogus" "nope").2.2).isSome = true
    ∧ lookupArea (area_check S0 "bogus" "nope").1 "full" "full"
        = some ⟨(S0.B.width, S0.B.height), (0, 0), some ⟨0, 0, S0.B.width, S0.B.height⟩⟩ := by
  obtain ⟨h1, h2, h3, h4⟩ := resolution_degrades_to_full S0 "bogus" "nope"
  exact ⟨h1 (by decide), h2 (by decide), h3, h4⟩

/-- C10: the pair (full, inner) passes resolution unchanged, yet its
table entry is one of the 2-tuples whose rectangle component is
commented out in the source, so the `[2]` lookup that `filter`,
the crop path of `image`, and `overlay` would perform is out of bounds:
`filter(part="full", region="inner")` aborts with an `IndexError`
(modelled as `none`) instead of performing an in-bounds lookup. -/
theorem full_inner_entry_lacks_rect :
    (area_check S0 "full" "inner").2 = ("full", "inner")
    ∧ lookupArea (area_check S0 "full" "inner").1 "full" "inner"
        = some ⟨(20, 20), (20, 20), none⟩
    ∧ filterMethod trivLib ps0 (some "blur") "full" "inner" 6 = none := by
  exact ⟨rfl, rfl, rfl⟩

/-- A successful construction bounds the stored thicknesses: header
margins within header width/height, body left and right within body
width; body top and bottom are only nonnegative (their upper check is
against the body width, see `marginCalc` at the construction sites). -/
theorem mkBackground_ok_thickness_bounds {nm : String} {w hgt : ℤ} {ratio : ℚ}
    {hm bm : MarginSpec} {B : Background}
    (hok : mkBackground nm w hgt ratio hm bm = .ok B)
    (hw : 0 ≤ w) (hhgt : 0 ≤ hgt) (hr0 : 0 ≤ ratio) (hr1 : ratio ≤ 1) :
    (0 ≤ B.header_margin_left_thickness ∧ B.header_margin_left_thickness ≤ B.width)
    ∧ (0 ≤ B.header_margin_right_thickness ∧ B.header_margin_right_thickness ≤ B.width)
    ∧ (0 ≤ B.header_margin_top_thickness ∧ B.header_margin_top_thickness ≤ B.header_height)
    ∧ (0 ≤ B.header_margin_bottom_thickness ∧ B.header_margin_bottom_thickness ≤ B.header_height)
    ∧ (0 ≤ B.body_margin_left_thickness ∧ B.body_margin_left_thickness ≤ B.width)
    ∧ (0 ≤ B.body_margin_right_thickness ∧ B.body_margin_right_thickness ≤ B.width)
    ∧ 0 ≤ B.body_margin_top_thickness
    ∧ 0 ≤ B.body_margin_bottom_thickness := by
  obtain ⟨-, hBw, hBh, hBr, e1, e2, e3, e4, e5, e6, e7, e8⟩ := mkBackground_ok_spec hok
  subst hBw
  subst hBh
  subst hBr
  have d1 := marginCalc_ok_bounds hw e1
  have d2 := marginCalc_ok_bounds hw e2
  have hhh : (0 : ℤ) ≤ pyInt ((B.height : ℚ) * B.hbratio) :=
    pyInt_nonneg (mul_nonneg (by exact_mod_cast hhgt) hr0)
  have d3 := marginCalc_ok_bounds hhh e3
  have d4 := marginCalc_ok_bounds hhh e4
  have d5 := marginCalc_ok_bounds hw e5
  have d6 := marginCalc_ok_bounds hw e6
  have hbhn : (0 : ℤ) ≤ pyInt ((B.height : ℚ) * (1 - B.hbratio)) :=
    pyInt_nonneg (mul_nonneg (by exact_mod_cast hhgt) (by linarith))
  have d7 := marginCalc_ok_bounds hbhn e7
  have d8 := marginCalc_ok_bounds hbhn e8
  simp only [max_self] at d1 d2 d3 d4 d5 d6
  exact ⟨d1, d2, d3, d4, d5, d6, d7.1, d8.1⟩

/-- C2 (amended): for every successfully constructed model — with the
body span taken as the band from the bottom of the header to the bottom
of the image, as the source lays the body rectangles out, and assuming
the body top and bottom thicknesses fit that span (which the width-based
boundary check does not itself guarantee) — every exclusive margin
rectangle is contained in its inclusive one, inclusive rectangles and
inner rectangle are contained in their area, and the inner rectangle
equals the area minus the four inclusive bands exactly: disjoint from
each band and jointly covering the area.  The four inclusive bands
themselves may overlap at corners, so the five pieces do not tile
disjointly (see the counterexample). -/
theorem margin_chain_and_partition {nm : String} {w hgt : ℤ} {ratio : ℚ}
    {hm bm : MarginSpec} {B : Background}
    (hok : mkBackground nm w hgt ratio hm bm = .ok B)
    (hw : 0 ≤ w) (hhgt : 0 ≤ hgt) (hr0 : 0 ≤ ratio) (hr1 : ratio ≤ 1)
    (hbt : B.body_margin_top_thickness ≤ B.height - B.header_height)
    (hbb : B.body_margin_bottom_thickness ≤ B.height - B.header_height) :
    C2Conclusion B := by
  obtain ⟨⟨l1, l2⟩, ⟨r1, r2⟩, ⟨t1, t2⟩, ⟨b1, b2⟩, ⟨L1, L2⟩, ⟨R1, R2⟩, T1, Bo1⟩ :=
    mkBackground_ok_thickness_bounds hok hw hhgt hr0 hr1
  unfold C2Conclusion
  refine ⟨⟨?_, ?_, ?_, ?_⟩, ⟨?_, ?_, ?_, ?_⟩, ?_, ?_,
          ⟨?_, ?_, ?_, ?_⟩, ⟨?_, ?_, ?_, ?_⟩, ?_, ?_, ?_⟩
  all_goals
    first
    | (intro heq
       simp only [bodySpanRect, Background.body_rect, Background.body_width,
         Rect.mk.injEq, true_and, and_true, and_self]
       omega)
    | (rintro ⟨x, y⟩ hmem
       revert hmem
       simp only [Rect.Mem, Background.header_width, Background.body_width,
         Background.header_rect, Background.header_cont_rect, Background.header_cont_height,
         Background.header_margin_left_inclusive, Background.header_margin_right_inclusive,
         Background.header_margin_top_inclusive, Background.header_margin_bottom_inclusive,
         Background.header_margin_left_exclusive, Background.header_margin_right_exclusive,
         Background.header_margin_top_exclusive, Background.header_margin_bottom_exclusive,
         Background.body_cont_rect,
         Background.body_margin_left_inclusive, Background.body_margin_right_inclusive,
         Background.body_margin_top_inclusive, Background.body_margin_bottom_inclusive,
         Background.body_margin_left_exclusive, Background.body_margin_right_exclusive,
         Background.body_margin_top_exclusive, Background.body_margin_bottom_exclusive,
         bodySpanRect]
       omega)

/-- Witness for C2 (amended) at the default 1000 by 800 model. -/
theorem margin_chain_and_partition_witness : C2Conclusion defaultBackground :=
  @margin_chain_and_partition "pic.png" 1000 800 (1/5) defaultHeaderMargins
    defaultBodyMargins defaultBackground (by decide) (by decide) (by decide)
    (by decide) (by decide) (by decide) (by decide)

/-- Counterexample to C2 as stated: in the default model the pixel
(0, 0) lies in both the left and the top inclusive header bands, so the
inner rectangle and the four inclusive bands do not tile the header
without overlapping pixels; furthermore on a 1000 by 801 image the body
left inclusive band escapes the body rectangle (the two independent
height floors lose a pixel: 160 + 640 < 801), and with body_top = 700 —
accepted by construction — the body top inclusive band even escapes the
body span from header bottom to image bottom. -/
theorem margin_tiling_claim_false :
    ¬ TilesExactly defaultBackground.header_rect (headerTilingPieces defaultBackground)
    ∧ ¬ Rect.Sub bg801.body_margin_left_inclusive bg801.body_rect
    ∧ ¬ Rect.Sub bgTop700.body_margin_top_inclusive (bodySpanRect bgTop700) := by
  refine ⟨?_, ?_, ?_⟩
  · rintro ⟨-, hpw⟩
    simp only [headerTilingPieces, List.pairwise_cons, List.mem_cons,
      List.not_mem_nil, or_false, forall_eq_or_imp, forall_eq] at hpw
    have h1 : Rect.Disj defaultBackground.header_margin_left_inclusive
        defaultBackground.header_margin_top_inclusive := hpw.2.1.2.1
    exact h1 (0, 0) (by decide) (by decide)
  · intro hsub
    exact absurd (hsub (0, 800) (by decide)) (by decide)
  · intro hsub
    exact absurd (hsub (0, 820) (by decide)) (by decide)

theorem area_check_canon (B : Background) (f : Bool) (part region : String) :
    area_check (canonState B f) part region
      = (canonState B f,
         if part ∈ area_parts then part else "full",
         if region ∈ fullRegionKeys then region else "full") := by
  rw [area_check_eq]
  rfl

/-- Computation lemma: one `filter` call with operation `raw` on a
resolvable region with a rectangle entry. -/
theorem filterMethod_raw_eq (lib : ImageLib) (ps : PbcState) (part region : String)
    (v : ℚ) {entry : AreaEntry} {rc : Rect}
    (hent : lookupArea (area_check ps.bs part region).1 (area_check ps.bs part region).2.1
        (area_check ps.bs part region).2.2 = some entry)
    (hrc : entry.rect = some rc) :
    filterMethod lib ps (some "raw") part region v
      = some ⟨(area_check ps.bs part region).1, ps.imco,
              ps.im_obj.paste (lib.gaussianBlur 0 (ps.imco.crop rc)) entry.origin⟩ := by
  simp only [filterMethod, Filter_options, hent, hrc, Option.isSome, if_true]

/-- Computation lemma: one `filter` call with the pass-through operation
(`None`) on a resolvable region with a rectangle entry. -/
theorem filterMethod_none_eq (lib : ImageLib) (ps : PbcState) (part region : String)
    (v : ℚ) {entry : AreaEntry} {rc : Rect}
    (hent : lookupArea (area_check ps.bs part region).1 (area_check ps.bs part region).2.1
        (area_check ps.bs part region).2.2 = some entry)
    (hrc : entry.rect = some rc) :
    filterMethod lib ps none part region v
      = some ⟨(area_check ps.bs part region).1, ps.imco,
              ps.im_obj.paste (lib.gaussianBlur 0 (ps.im_obj.crop rc)) entry.origin⟩ := by
  simp only [filterMethod, Filter_options, hent, hrc, Option.isSome, if_true]
  rfl

theorem crop_px (im : Img) (rc : Rect) (u v : ℤ) :
    (im.crop rc).px u v = im.px (rc.x0 + u) (rc.y0 + v) := rfl

theorem paste_px_in {canvas src : Img} {x y x0 y0 : ℤ}
    (hx : x0 ≤ x ∧ x < x0 + src.w) (hy : y0 ≤ y ∧ y < y0 + src.h) :
    (canvas.paste src (x0, y0)).px x y = src.px (x - x0) (y - y0) := by
  simp only [Img.paste]
  rw [if_pos ⟨hx.1, hx.2, hy.1, hy.2⟩]

theorem paste_px_out {canvas src : Img} {x y x0 y0 : ℤ}
    (h : ¬ (x0 ≤ x ∧ x < x0 + src.w ∧ y0 ≤ y ∧ y < y0 + src.h)) :
    (canvas.paste src (x0, y0)).px x y = canvas.px x y := by
  simp only [Img.paste]
  rw [if_neg h]

theorem pasteAlpha_px_out {canvas src : Img} {comp : Comp} {x y x0 y0 : ℤ}
    (h : ¬ (x0 ≤ x ∧ x < x0 + src.w ∧ y0 ≤ y ∧ y < y0 + src.h)) :
    (canvas.pasteAlpha comp src (x0, y0)).px x y = canvas.px x y := by
  simp only [Img.pasteAlpha]
  rw [if_neg h]

/-- `__paste_image` never changes a pixel outside the pasted box,
whatever the pixel mode. -/
theorem paste_image_px_out (comp : Comp) (canvas image : Img) {x y x0 y0 : ℤ}
    (h : ¬ (x0 ≤ x ∧ x < x0 + image.w ∧ y0 ≤ y ∧ y < y0 + image.h)) :
    (paste_image comp canvas image (x0, y0)).px x y = canvas.px x y := by
  unfold paste_image
  split_ifs <;> first | exact paste_px_out h | exact pasteAlpha_px_out h | rfl

/-- C7: a raw filter followed by a pass-through filter on the same
region restores that region of the working buffer to the pristine
original pixels, whatever the working buffer held before. -/
theorem raw_then_passthrough_restores (lib : ImageLib)
    (hgb : ∀ im, lib.gaussianBlur 0 im = im)
    (ps : PbcState) (part region : String) (v1 v2 : ℚ)
    (entry : AreaEntry) (rc : Rect)
    (hent : lookupArea (area_check ps.bs part region).1 (area_check ps.bs part region).2.1
        (area_check ps.bs part region).2.2 = some entry)
    (hrc : entry.rect = some rc)
    (hor : entry.origin = (rc.x0, rc.y0))
    (ps1 ps2 : PbcState)
    (h1 : filterMethod lib ps (some "raw") part region v1 = some ps1)
    (h2 : filterMethod lib ps1 none part region v2 = some ps2) :
    ∀ x y : ℤ, rc.Mem (x, y) → ps2.im_obj.px x y = ps.imco.px x y := by
  set p := (area_check ps.bs part region).2.1 with hp
  set r := (area_check ps.bs part region).2.2 with hr
  set C := (area_check ps.bs part region).1 with hCdef
  rw [filterMethod_raw_eq lib ps part region v1 hent hrc] at h1
  replace h1 := (Option.some.inj h1).symm
  subst h1
  have hCC : area_check C part region = (C, p, r) := by
    rw [hCdef, hp, hr, area_check_eq ps.bs part region]
    exact area_check_canon _ _ _ _
  have hent2 : lookupArea (area_check C part region).1 (area_check C part region).2.1
      (area_check C part region).2.2 = some entry := by
    rw [hCC]
    exact hent
  rw [filterMethod_none_eq lib _ part region v2 hent2 hrc] at h2
  replace h2 := (Option.some.inj h2).symm
  subst h2
  intro x y hxy
  simp only [Rect.Mem] at hxy
  obtain ⟨hx0, hx1, hy0, hy1⟩ := hxy
  simp only [hgb, hor]
  rw [paste_px_in ⟨hx0, by show x < rc.x0 + (rc.x1 - rc.x0); omega⟩
        ⟨hy0, by show y < rc.y0 + (rc.y1 - rc.y0); omega⟩,
      crop_px]
  have e1 : rc.x0 + (x - rc.x0) = x := by omega
  have e2 : rc.y0 + (y - rc.y0) = y := by omega
  rw [e1, e2]
  rw [paste_px_in ⟨hx0, by show x < rc.x0 + (rc.x1 - rc.x0); omega⟩
        ⟨hy0, by show y < rc.y0 + (rc.y1 - rc.y0); omega⟩,
      crop_px]
  rw [e1, e2]

/-- Witness for C7: concrete states over the default model, region
(header, inner), checked at the pixel (150, 40) of that region. -/
theorem raw_then_passthrough_restores_witness :
    ps2c.im_obj.px 150 40 = ps0.imco.px 150 40 :=
  raw_then_passthrough_restores trivLib (fun _ => rfl) ps0 "header" "inner" 0 0
    ⟨defaultBackground.header_cont_size, defaultBackground.header_cont_rect.corner,
      some defaultBackground.header_cont_rect⟩
    defaultBackground.header_cont_rect rfl rfl rfl ps1c ps2c rfl rfl
    150 40 (by decide)

/-- Computation lemma: `image` with an unopenable picture,
`borders=True`, no anchor and full opacity on a resolvable region with a
rectangle entry: paste the magenta placeholder onto a scratch copy of
the working buffer at the region origin, crop the region rectangle out
of the scratch copy, and paste the crop back at the region origin. -/
theorem imageMethod_missing_borders_eq (comp : Comp) (lib : ImageLib) (ps : PbcState)
    (part region : String) {entry : AreaEntry} {rc : Rect}
    (hent : lookupArea (area_check ps.bs part region).1 (area_check ps.bs part region).2.1
        (area_check ps.bs part region).2.2 = some entry)
    (hrc : entry.rect = some rc) :
    imageMethod comp lib ps .unopenable part region (some true) none 255
      = some ⟨(area_check ps.bs part region).1, ps.imco,
          paste_image comp ps.im_obj
            ((paste_image comp ps.im_obj (placeholderImage entry) entry.origin).crop rc)
            entry.origin⟩ := by
  simp only [imageMethod, hent, hrc, try_open_image]
  rfl

/-- C8: `image(picture="missing.png", part="body", region="full",
borders=True)` substitutes the fixed magenta placeholder sized to the
region, produces the working buffer by the scratch-copy, crop and
paste-back sequence hard-clipped to the region rectangle, and leaves
every pixel outside that rectangle unchanged. -/
theorem image_missing_clipped (comp : Comp) (lib : ImageLib) (ps : PbcState)
    (entry : AreaEntry) (rc : Rect)
    (hent : lookupArea (area_check ps.bs "body" "full").1
        (area_check ps.bs "body" "full").2.1
        (area_check ps.bs "body" "full").2.2 = some entry)
    (hrc : entry.rect = some rc)
    (hor : entry.origin = (rc.x0, rc.y0))
    (ps1 : PbcState)
    (h1 : imageMethod comp lib ps .unopenable "body" "full" (some true) none 255
        = some ps1) :
    (∀ x y : ℤ, ¬ rc.Mem (x, y) → ps1.im_obj.px x y = ps.im_obj.px x y)
    ∧ (placeholderImage entry).mode = "RGBA"
    ∧ (placeholderImage entry).w = entry.size.1
    ∧ (placeholderImage entry).h = entry.size.2
    ∧ (∀ x y : ℤ, (placeholderImage entry).px x y = ⟨255, 0, 255, 230⟩)
    ∧ ps1.im_obj = paste_image comp ps.im_obj
        ((paste_image comp ps.im_obj (placeholderImage entry) entry.origin).crop rc)
        entry.origin := by
  rw [imageMethod_missing_borders_eq comp lib ps "body" "full" hent hrc] at h1
  replace h1 := (Option.some.inj h1).symm
  subst h1
  refine ⟨?_, rfl, rfl, rfl, fun _ _ => rfl, rfl⟩
  intro x y hq
  simp only [Rect.Mem] at hq
  rw [hor]
  apply paste_image_px_out
  intro hc
  simp only [Img.crop] at hc
  exact hq ⟨hc.1, by omega, hc.2.2.1, by omega⟩

/-- Witness for C8: default model, unchanged pixel checked at (5, 5),
outside the body rectangle (0, 160, 1000, 800). -/
theorem image_missing_clipped_witness :
    (ps8c.im_obj.px 5 5 = ps0.im_obj.px 5 5)
    ∧ (placeholderImage ⟨defaultBackground.body_size, defaultBackground.body_rect.corner,
        some defaultBackground.body_rect⟩).mode = "RGBA" := by
  obtain ⟨h1, h2, -⟩ := image_missing_clipped overComp trivLib ps0
    ⟨defaultBackground.body_size, defaultBackground.body_rect.corner,
      some defaultBackground.body_rect⟩
    defaultBackground.body_rect rfl rfl rfl ps8c rfl
  exact ⟨h1 5 5 (by decide), h2⟩

/-- C9 (amended): every save call that proceeds to write a file writes
the filename `"pbc-"` followed by the base name of the `name` argument
(not of the original loaded file); a save with no `name` argument never
reaches the write (splitting `None` raises first). -/
theorem save_writes_pbc_name_basename (sl im n : String) (loc : List String)
    (pe : String → Bool) (cwd : String) (res : SaveResult)
    (h : saveMethod sl im (some n) loc pe cwd = some res) :
    res.filename = "pbc-" ++ (splitPath n).2
    ∧ saveMethod sl im none loc pe cwd = none := by
  refine ⟨?_, rfl⟩
  simp only [saveMethod] at h
  by_cases h1 : loc ≠ [] ∧ (if sl = "" then (splitPath n).1 else sl) ≠ ""
  · rw [if_pos h1] at h
    exact Option.noConfusion h
  · rw [if_neg h1] at h
    split at h
    · exact Option.noConfusion h
    · replace h := (Option.some.inj h).symm
      subst h
      rfl

/-- Witness for C9 (amended): original file `bar.jpg`, `name` argument
`foo.png`, no location, empty process-wide save directory. -/
theorem save_writes_pbc_name_basename_witness :
    ((saveMethod "" "bar.jpg" (some "foo.png") [] (fun _ => true) ".").getD
        ⟨"", "", ""⟩).filename = "pbc-" ++ (splitPath "foo.png").2
    ∧ saveMethod "" "bar.jpg" none [] (fun _ => true) "." = none :=
  save_writes_pbc_name_basename "" "bar.jpg" "foo.png" [] (fun _ => true) "."
    ⟨"pbc-foo.png", "png", "."⟩ rfl

/-- Counterexample to C9 as stated: saving an instance loaded from
`bar.jpg` under the name `foo.png` writes `pbc-foo.png` — the base name
of the `name` argument — and not `pbc-bar.jpg` built from the original
base name. -/
theorem save_name_counterexample :
    saveMethod "" "bar.jpg" (some "foo.png") [] (fun _ => true) "."
      = some ⟨"pbc-foo.png", "png", "."⟩
    ∧ "pbc-foo.png" ≠ "pbc-bar.jpg" := by
  exact ⟨rfl, by decide⟩

end Pbc
